import Mathlib

/- Shallow embedding of `src/llm_tester.py`.

   The program is a line-oriented test harness for a chat-completion API:
   `fillOutputFileUsingConversationHistory` reads an input transcript line by
   line, answers every `- Q: ` line through the API while accumulating the
   conversation history, drops `- A:` lines, and copies everything else.
   The interactive helpers (`inputFloatBetween`, `inputInt`,
   `inputStringOrNull`, `inputStringOrDefault`) validate operator input, and
   `getRequestOptions` collects the generation options once per process.

   Modelling conventions:
   * a Python `str` is its sequence of characters (`List Char`);
   * the input file is the list of its lines as produced by Python file
     iteration (each line keeps its trailing newline); the output file is the
     list of strings passed to `write`, in order;
   * the API client is an oracle `List Msg → Except PyStr Msg`: `Except.ok`
     is a successful chat completion, `Except.error` a raised transport/API
     error (which the code does not catch);
   * `input()` is a stream of operator replies (`List PyStr`); a validation
     loop returns `none` when it exhausts the stream (it would re-prompt
     forever), and otherwise the accepted value plus the unread stream;
   * the process-wide mutable `requestOptions` dict becomes explicit state
     passing: `getRequestOptions` takes the current cached state and returns
     the new one; an absent dict key is an `Option` field that is `none`. -/

namespace LlmTester

/-- Python strings, modelled as their character sequences. -/
abbrev PyStr := List Char

/-- View a Lean string literal as a Python string value. -/
def str (s : String) : PyStr := s.toList

/-- Python `s.startswith(p)`. -/
def pyStartsWith : PyStr → PyStr → Bool
  | _, [] => true
  | [], _ :: _ => false
  | c :: s, d :: p => c == d && pyStartsWith s p

/-- Python `s.strip()`: drop whitespace from both ends (ASCII whitespace,
which covers every character the program ever strips). -/
def pyStrip (s : PyStr) : PyStr :=
  ((s.dropWhile Char.isWhitespace).reverse.dropWhile Char.isWhitespace).reverse

/-- A conversation message: both the `{'role': ..., 'content': ...}` dicts the
program builds and the `ChatCompletionMessage` objects the API returns carry a
role and a content string (`llm_tester.py` line 6). -/
structure Msg where
  role : PyStr
  content : PyStr
deriving DecidableEq

/-- The question-line marker `'- Q: '` (`llm_tester.py` line 114). -/
def qMark : PyStr := str "- Q: "

/-- The 4-character marker `'- Q:'` (the question marker without its trailing
space), used to state what happens to lines that almost look like questions. -/
def qColonMark : PyStr := str "- Q:"

/-- The answer-line marker `'- A:'` (`llm_tester.py` line 122). -/
def aMark : PyStr := str "- A:"

/-- `getMessageHistoryEntry` (lines 76-91): a `ChatCompletionMessage` is kept
as is, any other content is wrapped in a dict with the given role. -/
def getMessageHistoryEntry (content : PyStr ⊕ Msg) (role : PyStr) : Msg :=
  match content with
  | Sum.inr m => m
  | Sum.inl s => Msg.mk role s

/-- The history entry built for a question line: the text after the
5-character prefix, stripped, with role `'user'` (lines 116-118). -/
def questionEntry (line : PyStr) : Msg :=
  getMessageHistoryEntry (Sum.inl (pyStrip (line.drop 5))) (str "user")

/-- The answer line written for a completed request:
`'- A: ' + answer.content.strip() + '\n'` (line 121). -/
def answerLine (content : PyStr) : PyStr :=
  str "- A: " ++ pyStrip content ++ ['\n']

/-- The observable result of one run of the rewriter: the strings written to
the output file in order, the final history, the message list passed to each
API request in order, and the error that escaped (if any). -/
structure RunResult where
  output : List PyStr
  messages : List Msg
  requests : List (List Msg)
  error : Option PyStr
deriving DecidableEq

/-- The per-line loop of `fillOutputFileUsingConversationHistory`
(lines 113-125).  For a `- Q: ` line: write the original line, append the
stripped question as a `user` entry, issue one request with the full history
(`getAnswer`, lines 66-73), append the returned message, write the generated
answer line.  A raised API error aborts the run at once with the output
written so far.  `- A:` lines are dropped; every other line is copied. -/
def fillLoop (oracle : List Msg → Except PyStr Msg) :
    List PyStr → List Msg → List PyStr → List (List Msg) → RunResult
  | [], msgs, out, reqs => RunResult.mk out msgs reqs none
  | line :: rest, msgs, out, reqs =>
    if pyStartsWith line qMark then
      match oracle (msgs ++ [questionEntry line]) with
      | Except.error e =>
          RunResult.mk (out ++ [line]) (msgs ++ [questionEntry line])
            (reqs ++ [msgs ++ [questionEntry line]]) (some e)
      | Except.ok answer =>
          fillLoop oracle rest ((msgs ++ [questionEntry line]) ++ [answer])
            (out ++ [line, answerLine answer.content])
            (reqs ++ [msgs ++ [questionEntry line]])
    else if pyStartsWith line aMark then
      fillLoop oracle rest msgs out reqs
    else
      fillLoop oracle rest msgs (out ++ [line]) reqs

/-- The initial history: one `system` entry when a system message is given,
where Python truthiness also treats the empty string as "no message"
(lines 108-110). -/
def initialMessages (system_message : Option PyStr) : List Msg :=
  match system_message with
  | none => []
  | some s =>
    if s.isEmpty then [] else [getMessageHistoryEntry (Sum.inl s) (str "system")]

/-- `fillOutputFileUsingConversationHistory` (lines 94-125) on the list of
input lines. -/
def fillOutputFileUsingConversationHistory (oracle : List Msg → Except PyStr Msg)
    (system_message : Option PyStr) (inputLines : List PyStr) : RunResult :=
  fillLoop oracle inputLines (initialMessages system_message) [] []

/-- An API client that never raises: every request returns `f` of the
history. -/
def okOracle (f : List Msg → Msg) : List Msg → Except PyStr Msg :=
  fun h => Except.ok (f h)

/-- One-line scanner for the shape of rewriter output; the flag records that
the previous line was a question, so an answer line must come right now.
Outside that position, answer lines are forbidden. -/
def outputShapeAux : Bool → List PyStr → Bool
  | false, [] => true
  | true, [] => false
  | false, l :: rest =>
    if pyStartsWith l qMark then outputShapeAux true rest
    else !(pyStartsWith l aMark) && outputShapeAux false rest
  | true, l :: rest => pyStartsWith l aMark && outputShapeAux false rest

/-- The well-formedness of rewriter output stated by the spec: every question
line is immediately followed by exactly one answer line, and answer lines
occur nowhere else. -/
def outputShape (ls : List PyStr) : Bool := outputShapeAux false ls

/-- A single complete text line: it ends with a newline and contains no other
newline, so that writing it adds exactly one line to the output file. -/
def properLine (l : PyStr) : Bool :=
  match l.reverse with
  | [] => false
  | c :: t => c == '\n' && t.all (fun x => !(x == '\n'))

/-- Split a file content into its lines the way Python file iteration does:
each line keeps its trailing newline; a last line without a newline is still
yielded; the empty file has no lines. -/
def splitLinesAux : PyStr → PyStr → List PyStr
  | [], acc => if acc.isEmpty then [] else [acc.reverse]
  | c :: cs, acc =>
    if c = '\n' then (acc.reverse ++ ['\n']) :: splitLinesAux cs []
    else splitLinesAux cs (c :: acc)

/-- The lines of a file content, as Python file iteration yields them. -/
def splitLines (s : PyStr) : List PyStr := splitLinesAux s []

/-- The content of the output file: the written strings, concatenated. -/
def pyJoin (ls : List PyStr) : PyStr := ls.foldr (fun a b => a ++ b) []

/-- Digit-string value; `none` when some character is not a decimal digit.
The empty string is vacuously all digits and maps to `0`, callers exclude it
explicitly where Python does. -/
def parseDigitsOrEmpty (cs : List Char) : Option Nat :=
  if cs.all Char.isDigit then
    some (cs.foldl (fun n c => 10 * n + (c.toNat - 48)) 0)
  else none

/-- A parsed decimal literal, kept as an integer mantissa and a power-of-ten
scale: the represented value is `m / 10 ^ k`.  The pair is left unevaluated so
that parsing stays executable by the kernel; `decValue` interprets it as the
exact number the literal denotes. -/
abbrev Dec := Int × Nat

/-- The exact value of a parsed decimal literal.  The program's prompts only
ever compare these values against the small bounds `-2`, `0` and `2`, where
the exact rational agrees with the Python float. -/
def decValue (d : Dec) : Rat := (d.1 : Rat) / (10 : Rat) ^ d.2

/-- Python `float(s)` on an unsigned literal, restricted to the plain decimal
forms (`"3"`, `"3.5"`, `"3."`, `".5"`) the program's prompts are about.
Anything else raises, i.e. is `none`. -/
def parseUnsignedDecimal (cs : List Char) : Option (Nat × Nat) :=
  let intPart := cs.takeWhile (fun c => !(c == '.'))
  let rest := cs.dropWhile (fun c => !(c == '.'))
  match rest with
  | [] =>
    if intPart.isEmpty then none
    else (parseDigitsOrEmpty intPart).map (fun n => (n, 0))
  | _ :: fracPart =>
    if fracPart.any (fun c => c == '.') then none
    else if intPart.isEmpty && fracPart.isEmpty then none
    else
      (parseDigitsOrEmpty intPart).bind (fun i =>
        (parseDigitsOrEmpty fracPart).map (fun f =>
          (i * 10 ^ fracPart.length + f, fracPart.length)))

/-- Python `float(s)`: strip surrounding whitespace, allow one sign, then an
unsigned decimal literal. -/
def parseDecimal (s : PyStr) : Option Dec :=
  match pyStrip s with
  | [] => none
  | c :: cs =>
    if c = '-' then (parseUnsignedDecimal cs).map (fun d => (-(d.1 : Int), d.2))
    else if c = '+' then (parseUnsignedDecimal cs).map (fun d => ((d.1 : Int), d.2))
    else (parseUnsignedDecimal (c :: cs)).map (fun d => ((d.1 : Int), d.2))

/-- Nonempty all-digit string value, used by the integer parser. -/
def parseIntDigits (cs : List Char) : Option Nat :=
  if cs.isEmpty then none else parseDigitsOrEmpty cs

/-- Python `int(s)`: strip surrounding whitespace, allow one sign, then
decimal digits only (in particular `int("3.5")` raises). -/
def parseInt (s : PyStr) : Option Int :=
  match pyStrip s with
  | [] => none
  | c :: cs =>
    if c = '-' then (parseIntDigits cs).map (fun n => -(n : Int))
    else if c = '+' then (parseIntDigits cs).map (fun n => (n : Int))
    else (parseIntDigits (c :: cs)).map (fun n => (n : Int))

/-- `inputFloatBetween` (lines 145-171) on a reply stream: an empty reply with
`allow_null` returns `None`; a reply `float()` rejects, or one outside
`[min_value, max_value]`, re-prompts; otherwise the parsed value is returned.
`none` means the stream ran out (the loop would keep prompting). -/
def inputFloatBetween (min_value max_value : Rat) (allow_null : Bool) :
    List PyStr → Option (Option Rat × List PyStr)
  | [] => none
  | result :: rest =>
    if (pyStrip result).isEmpty && allow_null then some (none, rest)
    else
      match parseDecimal result with
      | none => inputFloatBetween min_value max_value allow_null rest
      | some d =>
        if max_value < decValue d ∨ decValue d < min_value then
          inputFloatBetween min_value max_value allow_null rest
        else some (some (decValue d), rest)

/-- `inputInt` (lines 174-194) on a reply stream: an empty reply with
`allow_null` returns `None`; a reply `int()` rejects re-prompts; any parsed
integer is returned, with no range check. -/
def inputInt (allow_null : Bool) : List PyStr → Option (Option Int × List PyStr)
  | [] => none
  | result :: rest =>
    if (pyStrip result).isEmpty && allow_null then some (none, rest)
    else
      match parseInt result with
      | none => inputInt allow_null rest
      | some n => some (some n, rest)

/-- `inputStringOrNull` (lines 197-212): strip the reply, `None` when the
stripped reply is empty. -/
def inputStringOrNull (result : PyStr) : Option PyStr :=
  if (pyStrip result).isEmpty then none else some (pyStrip result)

/-- `inputStringOrDefault` (lines 215-231): the default whenever the reply is
falsy (the `None` of `inputStringOrNull`; the empty-string branch of Python
truthiness is kept even though `inputStringOrNull` never returns it). -/
def inputStringOrDefault (result dflt : PyStr) : PyStr :=
  match inputStringOrNull result with
  | none => dflt
  | some r => if r.isEmpty then dflt else r

/-- The generation options dict (lines 22-41).  A key the program never put in
the dict is an `Option` field that is `none`. -/
structure RequestOptions where
  model : PyStr
  frequency_penalty : Option Rat
  max_tokens : Option Int
  presence_penalty : Option Rat
  temperature : Option Rat
deriving DecidableEq

/-- The first-call body of `getRequestOptions` (lines 23-40): prompt for the
model id, then for the four nullable numeric options in order, skipping the
dict assignment of every option answered as `None`. -/
def buildRequestOptions : List PyStr → Option (RequestOptions × List PyStr)
  | [] => none
  | i0 :: rest0 =>
    match inputFloatBetween (-2) 2 true rest0 with
    | none => none
    | some (fp, rest1) =>
      match inputInt true rest1 with
      | none => none
      | some (mt, rest2) =>
        match inputFloatBetween (-2) 2 true rest2 with
        | none => none
        | some (pp, rest3) =>
          match inputFloatBetween 0 2 true rest3 with
          | none => none
          | some (tp, rest4) =>
            some (RequestOptions.mk (inputStringOrDefault i0 (str "local-model"))
              fp mt pp tp, rest4)

/-- `getRequestOptions` (lines 12-41) with the process-wide cache made
explicit: the state is the cached options (`none` models the empty dict), the
result is the returned options, the new state and the unread reply stream. -/
def getRequestOptions (st : Option RequestOptions) (inputs : List PyStr) :
    Option (RequestOptions × Option RequestOptions × List PyStr) :=
  match st with
  | some opts => some (opts, some opts, inputs)
  | none =>
    match buildRequestOptions inputs with
    | none => none
    | some (opts, rest) => some (opts, some opts, rest)

/-! ### Elementary facts about the line markers -/

theorem qMark_def : qMark = ['-', ' ', 'Q', ':', ' '] := rfl

theorem aMark_def : aMark = ['-', ' ', 'A', ':'] := rfl

theorem qColonMark_def : qColonMark = ['-', ' ', 'Q', ':'] := rfl

theorem answerLine_def (c : PyStr) :
    answerLine c = '-' :: ' ' :: 'A' :: ':' :: ' ' :: (pyStrip c ++ ['\n']) := rfl

theorem pyStartsWith_append_left (l p q : PyStr)
    (h : pyStartsWith l (p ++ q) = true) : pyStartsWith l p = true := by
  induction p generalizing l with
  | nil => simp [pyStartsWith]
  | cons d p ih =>
    cases l with
    | nil => simp [pyStartsWith] at h
    | cons c l =>
      simp only [List.cons_append, pyStartsWith, Bool.and_eq_true] at h ⊢
      exact ⟨h.1, ih l h.2⟩

/-- A line that starts with `'- Q:'` does not start with `'- A:'`. -/
theorem qcolon_not_a (l : PyStr) (h : pyStartsWith l qColonMark = true) :
    pyStartsWith l aMark = false := by
  match l with
  | [] => simp [qColonMark_def, pyStartsWith] at h
  | [a] => simp [qColonMark_def, pyStartsWith] at h
  | [a, b] => simp [qColonMark_def, pyStartsWith] at h
  | a :: b :: c :: rest =>
    simp only [qColonMark_def, pyStartsWith, Bool.and_eq_true, beq_iff_eq] at h
    obtain ⟨ha, hb, hc, -⟩ := h
    subst ha; subst hb; subst hc
    have hQA : ('Q' == 'A') = false := by decide
    simp [aMark_def, pyStartsWith, hQA]

/-- A question line is not an answer line. -/
theorem q_not_a (l : PyStr) (h : pyStartsWith l qMark = true) :
    pyStartsWith l aMark = false :=
  qcolon_not_a l (pyStartsWith_append_left l qColonMark (str " ") h)

/-- A generated answer line starts with `'- A:'`. -/
theorem answerLine_is_a (c : PyStr) : pyStartsWith (answerLine c) aMark = true := by
  simp [answerLine_def, aMark_def, pyStartsWith]

/-- A generated answer line does not start with `'- Q: '`. -/
theorem answerLine_not_q (c : PyStr) : pyStartsWith (answerLine c) qMark = false := by
  have hAQ : ('A' == 'Q') = false := by decide
  simp [answerLine_def, qMark_def, pyStartsWith, hAQ]

/-! ### The accumulators of the rewriter loop -/

/-- `fillLoop` only ever appends to the output and request accumulators, and
its final history and error do not depend on them. -/
theorem fillLoop_acc (oracle : List Msg → Except PyStr Msg) (input : List PyStr) :
    ∀ (msgs : List Msg) (out : List PyStr) (reqs : List (List Msg)),
      fillLoop oracle input msgs out reqs =
        RunResult.mk (out ++ (fillLoop oracle input msgs [] []).output)
          ((fillLoop oracle input msgs [] []).messages)
          (reqs ++ (fillLoop oracle input msgs [] []).requests)
          ((fillLoop oracle input msgs [] []).error) := by
  induction input with
  | nil => intro msgs out reqs; simp [fillLoop]
  | cons line rest ih =>
    intro msgs out reqs
    cases hq : pyStartsWith line qMark with
    | true =>
      cases ho : oracle (msgs ++ [questionEntry line]) with
      | error e => simp [fillLoop, hq, ho]
      | ok a =>
        simp only [fillLoop, hq, if_true, ho]
        rw [ih ((msgs ++ [questionEntry line]) ++ [a])
              (out ++ [line, answerLine a.content]) (reqs ++ [msgs ++ [questionEntry line]]),
            ih ((msgs ++ [questionEntry line]) ++ [a])
              ([] ++ [line, answerLine a.content]) ([] ++ [msgs ++ [questionEntry line]])]
        simp
    | false =>
      cases ha : pyStartsWith line aMark with
      | true =>
        simp only [fillLoop, hq, ha, Bool.false_eq_true, if_false, if_true]
        exact ih msgs out reqs
      | false =>
        simp only [fillLoop, hq, ha, Bool.false_eq_true, if_false]
        rw [ih msgs (out ++ [line]) reqs, ih msgs ([] ++ [line]) []]
        simp

/-! ### Structure of a successful run -/

/-- The structural invariants of a run whose requests all succeed: the
question lines of the output are exactly those of the input, the output is
well shaped (`outputShape`: one answer line right after each question line and
answer lines nowhere else), the non-question non-answer lines of the output
are exactly those of the input, likewise all non-answer lines, and no error
occurs. -/
theorem fillLoop_structure (f : List Msg → Msg) (input : List PyStr) :
    ∀ msgs : List Msg,
      (fillLoop (okOracle f) input msgs [] []).output.filter
          (fun l => pyStartsWith l qMark) =
        input.filter (fun l => pyStartsWith l qMark)
      ∧ outputShape (fillLoop (okOracle f) input msgs [] []).output = true
      ∧ (fillLoop (okOracle f) input msgs [] []).output.filter
            (fun l => !(pyStartsWith l qMark) && !(pyStartsWith l aMark)) =
          input.filter (fun l => !(pyStartsWith l qMark) && !(pyStartsWith l aMark))
      ∧ (fillLoop (okOracle f) input msgs [] []).output.filter
            (fun l => !(pyStartsWith l aMark)) =
          input.filter (fun l => !(pyStartsWith l aMark))
      ∧ (fillLoop (okOracle f) input msgs [] []).error = none := by
  induction input with
  | nil => intro msgs; simp [fillLoop, outputShape, outputShapeAux]
  | cons line rest ih =>
    intro msgs
    cases hq : pyStartsWith line qMark with
    | true =>
      have hna : pyStartsWith line aMark = false := q_not_a line hq
      have step : fillLoop (okOracle f) (line :: rest) msgs [] [] =
          fillLoop (okOracle f) rest
            (msgs ++ [questionEntry line, f (msgs ++ [questionEntry line])])
            [line, answerLine (f (msgs ++ [questionEntry line])).content]
            [msgs ++ [questionEntry line]] := by
        simp [fillLoop, hq, okOracle]
      rw [step, fillLoop_acc]
      obtain ⟨ih1, ih2, ih3, ih4, ih5⟩ :=
        ih (msgs ++ [questionEntry line, f (msgs ++ [questionEntry line])])
      refine ⟨?_, ?_, ?_, ?_, ?_⟩
      · simp [hq, answerLine_not_q, ih1]
      · simpa [outputShape, outputShapeAux, hq, answerLine_is_a] using ih2
      · simp [hq, hna, answerLine_not_q, answerLine_is_a, ih3]
      · simp [hq, hna, answerLine_is_a, ih4]
      · exact ih5
    | false =>
      cases ha : pyStartsWith line aMark with
      | true =>
        have step : fillLoop (okOracle f) (line :: rest) msgs [] [] =
            fillLoop (okOracle f) rest msgs [] [] := by
          simp [fillLoop, hq, ha]
        rw [step]
        obtain ⟨ih1, ih2, ih3, ih4, ih5⟩ := ih msgs
        exact ⟨by simp [hq, ih1], ih2, by simp [hq, ha, ih3], by simp [ha, ih4], ih5⟩
      | false =>
        have step : fillLoop (okOracle f) (line :: rest) msgs [] [] =
            fillLoop (okOracle f) rest msgs [line] [] := by
          simp [fillLoop, hq, ha]
        rw [step, fillLoop_acc]
        obtain ⟨ih1, ih2, ih3, ih4, ih5⟩ := ih msgs
        refine ⟨?_, ?_, ?_, ?_, ?_⟩
        · simp [hq, ih1]
        · simpa [outputShape, outputShapeAux, hq, ha] using ih2
        · simp [hq, ha, ih3]
        · simp [ha, ih4]
        · exact ih5

/-! ### Proper lines and file splitting -/

theorem properLine_iff (l : PyStr) :
    properLine l = true ↔
      ∃ t : PyStr, l = t ++ ['\n'] ∧ t.all (fun x => !(x == '\n')) = true := by
  constructor
  · intro h
    rw [properLine] at h
    rcases hr : l.reverse with _ | ⟨c, t⟩
    · rw [hr] at h; simp at h
    · rw [hr] at h
      simp only [Bool.and_eq_true, beq_iff_eq] at h
      obtain ⟨hc, ht⟩ := h
      subst hc
      refine ⟨t.reverse, ?_, ?_⟩
      · have hll : l = l.reverse.reverse := (List.reverse_reverse l).symm
        rw [hll, hr]
        simp
      · simp only [List.all_eq_true] at ht ⊢
        intro x hx
        exact ht x (List.mem_reverse.mp hx)
  · rintro ⟨t, rfl, ht⟩
    rw [properLine]
    have hr : (t ++ ['\n']).reverse = '\n' :: t.reverse := by simp
    rw [hr]
    simp only [Bool.and_eq_true, beq_self_eq_true, true_and]
    simp only [List.all_eq_true] at ht ⊢
    intro x hx
    exact ht x (List.mem_reverse.mp hx)

theorem splitLinesAux_line (t : PyStr) (ht : t.all (fun x => !(x == '\n')) = true) :
    ∀ (cs acc : PyStr),
      splitLinesAux (t ++ '\n' :: cs) acc =
        (acc.reverse ++ t ++ ['\n']) :: splitLinesAux cs [] := by
  induction t with
  | nil => intro cs acc; simp [splitLinesAux]
  | cons c t ih =>
    intro cs acc
    simp only [List.all_cons, Bool.and_eq_true] at ht
    have hc : ¬(c = '\n') := by simpa using ht.1
    simp only [List.cons_append, splitLinesAux, if_neg hc, List.append_eq]
    rw [ih ht.2 cs (c :: acc)]
    simp

/-- Joining complete lines and re-splitting the file gives the lines back:
reading the output file again yields exactly the written lines. -/
theorem splitLines_pyJoin :
    ∀ chunks : List PyStr, (∀ l ∈ chunks, properLine l = true) →
      splitLines (pyJoin chunks) = chunks := by
  intro chunks
  induction chunks with
  | nil => intro h; rfl
  | cons l rest ih =>
    intro h
    obtain ⟨t, hl, ht⟩ := (properLine_iff l).mp (h l (by simp))
    subst hl
    have hjoin : pyJoin ((t ++ ['\n']) :: rest) = t ++ '\n' :: pyJoin rest := by
      simp [pyJoin]
    rw [splitLines, hjoin, splitLinesAux_line t ht (pyJoin rest) []]
    have ih2 : splitLinesAux (pyJoin rest) [] = rest :=
      ih (fun x hx => h x (by simp [hx]))
    rw [ih2]
    simp

/-- A generated answer line is a complete line whenever the answer content has
no interior newline. -/
theorem properLine_answerLine (c : PyStr)
    (hc : (pyStrip c).all (fun x => !(x == '\n')) = true) :
    properLine (answerLine c) = true := by
  rw [properLine_iff]
  refine ⟨str "- A: " ++ pyStrip c, by simp [answerLine], ?_⟩
  have hm : (str "- A: ").all (fun x => !(x == '\n')) = true := by decide
  simp [List.all_append, hm, hc]

/-- Every string a successful run writes is a complete line, provided the
input lines are complete lines and the generated answers are single-line. -/
theorem fillLoop_output_proper (f : List Msg → Msg)
    (hf : ∀ h : List Msg, (pyStrip (f h).content).all (fun x => !(x == '\n')) = true) :
    ∀ input : List PyStr, (∀ l ∈ input, properLine l = true) →
      ∀ msgs : List Msg, ∀ l ∈ (fillLoop (okOracle f) input msgs [] []).output,
        properLine l = true := by
  intro input
  induction input with
  | nil => intro hin msgs l hl; simp [fillLoop] at hl
  | cons line rest ih =>
    intro hin msgs l hl
    cases hq : pyStartsWith line qMark with
    | true =>
      have step : fillLoop (okOracle f) (line :: rest) msgs [] [] =
          fillLoop (okOracle f) rest
            (msgs ++ [questionEntry line, f (msgs ++ [questionEntry line])])
            [line, answerLine (f (msgs ++ [questionEntry line])).content]
            [msgs ++ [questionEntry line]] := by
        simp [fillLoop, hq, okOracle]
      rw [step, fillLoop_acc] at hl
      simp only [RunResult.output] at hl
      rcases List.mem_append.mp hl with hmem | hmem
      · rcases List.mem_cons.mp hmem with rfl | hmem2
        · exact hin l (by simp)
        · rcases List.mem_cons.mp hmem2 with rfl | hmem3
          · exact properLine_answerLine _ (hf _)
          · simp at hmem3
      · exact ih (fun x hx => hin x (by simp [hx])) _ l hmem
    | false =>
      cases ha : pyStartsWith line aMark with
      | true =>
        have step : fillLoop (okOracle f) (line :: rest) msgs [] [] =
            fillLoop (okOracle f) rest msgs [] [] := by
          simp [fillLoop, hq, ha]
        rw [step] at hl
        exact ih (fun x hx => hin x (by simp [hx])) msgs l hl
      | false =>
        have step : fillLoop (okOracle f) (line :: rest) msgs [] [] =
            fillLoop (okOracle f) rest msgs [line] [] := by
          simp [fillLoop, hq, ha]
        rw [step, fillLoop_acc] at hl
        simp only [RunResult.output] at hl
        rcases List.mem_append.mp hl with hmem | hmem
        · rcases List.mem_cons.mp hmem with rfl | hmem2
          · exact hin l (by simp)
          · simp at hmem2
        · exact ih (fun x hx => hin x (by simp [hx])) msgs l hmem

/-! ### Splitting a run at an error-free prefix -/

/-- A run over `xs ++ ys` whose `xs` part raises no error is the run over
`xs` continued by the run over `ys` from the state the first part reached. -/
theorem fillLoop_append (oracle : List Msg → Except PyStr Msg) :
    ∀ (xs : List PyStr) (msgs : List Msg) (out : List PyStr)
      (reqs : List (List Msg)) (ys : List PyStr),
      (fillLoop oracle xs msgs out reqs).error = none →
      fillLoop oracle (xs ++ ys) msgs out reqs =
        fillLoop oracle ys (fillLoop oracle xs msgs out reqs).messages
          ((fillLoop oracle xs msgs out reqs).output)
          ((fillLoop oracle xs msgs out reqs).requests) := by
  intro xs
  induction xs with
  | nil => intro msgs out reqs ys hok; simp [fillLoop]
  | cons line xs ih =>
    intro msgs out reqs ys hok
    cases hq : pyStartsWith line qMark with
    | true =>
      cases ho : oracle (msgs ++ [questionEntry line]) with
      | error e => simp [fillLoop, hq, ho] at hok
      | ok a =>
        rw [List.cons_append]
        simp only [fillLoop, hq, if_true, ho] at hok ⊢
        exact ih ((msgs ++ [questionEntry line]) ++ [a])
          (out ++ [line, answerLine a.content])
          (reqs ++ [msgs ++ [questionEntry line]]) ys hok
    | false =>
      cases ha : pyStartsWith line aMark with
      | true =>
        rw [List.cons_append]
        simp only [fillLoop, hq, ha, Bool.false_eq_true, if_false, if_true] at hok ⊢
        exact ih msgs out reqs ys hok
      | false =>
        rw [List.cons_append]
        simp only [fillLoop, hq, ha, Bool.false_eq_true, if_false] at hok ⊢
        exact ih msgs (out ++ [line]) reqs ys hok

/-! ### C1: output invariants of the rewriter -/

/-- C1 (amended): for every input and every run whose requests all succeed,
the question lines of the output are exactly the question lines of the input
(hence their counts are equal), every question line of the output is
immediately followed by exactly one answer line and answer lines appear
nowhere else — so no answer line of the input is ever copied, although a
freshly generated answer line may coincide with a stale one — and every line
that is neither a question nor an answer line is copied unchanged and in its
original order. -/
theorem claim1_rewriter_invariant (f : List Msg → Msg) (sm : Option PyStr)
    (input : List PyStr) :
    (fillOutputFileUsingConversationHistory (okOracle f) sm input).output.filter
        (fun l => pyStartsWith l qMark) =
      input.filter (fun l => pyStartsWith l qMark)
    ∧ ((fillOutputFileUsingConversationHistory (okOracle f) sm input).output.filter
        (fun l => pyStartsWith l qMark)).length =
      (input.filter (fun l => pyStartsWith l qMark)).length
    ∧ outputShape
        (fillOutputFileUsingConversationHistory (okOracle f) sm input).output = true
    ∧ (fillOutputFileUsingConversationHistory (okOracle f) sm input).output.filter
          (fun l => !(pyStartsWith l qMark) && !(pyStartsWith l aMark)) =
        input.filter (fun l => !(pyStartsWith l qMark) && !(pyStartsWith l aMark)) := by
  obtain ⟨h1, h2, h3, h4, h5⟩ := fillLoop_structure f input (initialMessages sm)
  exact ⟨h1, congrArg List.length h1, h2, h3⟩

/-- C1 is false as literally stated: a stale answer line of the input can
reappear in the output, namely when the freshly generated answer coincides
with it.  Here the input holds the answer line `'- A: 4\n'` and the API
answers `'4'`, so the very same line is in the output. -/
theorem claim1_counterexample :
    pyStartsWith (str "- A: 4\n") aMark = true
    ∧ str "- A: 4\n" ∈ [str "- Q: What is 2 plus 2?\n", str "- A: 4\n"]
    ∧ str "- A: 4\n" ∈
        (fillOutputFileUsingConversationHistory
          (okOracle (fun _ => Msg.mk (str "assistant") (str "4"))) none
          [str "- Q: What is 2 plus 2?\n", str "- A: 4\n"]).output := by
  decide

/-! ### C2: processing of one question line -/

/-- C2: on a line with the 5-character prefix `'- Q: '` the rewriter writes
the original line unchanged first, appends the text after the prefix stripped
of surrounding whitespace as a history entry of role `'user'`, issues exactly
one request carrying the full history, appends the returned message to the
history, and writes `'- A: '` followed by the stripped answer content and a
newline. -/
theorem claim2_question_line (oracle : List Msg → Except PyStr Msg)
    (line : PyStr) (rest : List PyStr) (msgs : List Msg) (out : List PyStr)
    (reqs : List (List Msg)) (a : Msg)
    (hq : pyStartsWith line qMark = true)
    (ho : oracle (msgs ++ [questionEntry line]) = Except.ok a) :
    fillLoop oracle (line :: rest) msgs out reqs =
      fillLoop oracle rest (msgs ++ [questionEntry line, a])
        (out ++ [line, answerLine a.content])
        (reqs ++ [msgs ++ [questionEntry line]])
    ∧ questionEntry line = Msg.mk (str "user") (pyStrip (line.drop 5)) := by
  refine ⟨?_, rfl⟩
  simp [fillLoop, hq, ho]

theorem claim2_witness :
    pyStartsWith (str "- Q: hi\n") qMark = true
    ∧ (fun _ : List Msg => (Except.ok (Msg.mk (str "assistant") (str " 4 ")) : Except PyStr Msg))
        ([] ++ [questionEntry (str "- Q: hi\n")]) =
        Except.ok (Msg.mk (str "assistant") (str " 4 "))
    ∧ (fillLoop (fun _ => (Except.ok (Msg.mk (str "assistant") (str " 4 ")) : Except PyStr Msg))
          [str "- Q: hi\n"] [] [] [] =
        fillLoop (fun _ => (Except.ok (Msg.mk (str "assistant") (str " 4 ")) : Except PyStr Msg))
          [] ([] ++ [questionEntry (str "- Q: hi\n"), Msg.mk (str "assistant") (str " 4 ")])
          ([] ++ [str "- Q: hi\n", answerLine (Msg.mk (str "assistant") (str " 4 ")).content])
          ([] ++ [[] ++ [questionEntry (str "- Q: hi\n")]])
       ∧ questionEntry (str "- Q: hi\n") =
          Msg.mk (str "user") (pyStrip ((str "- Q: hi\n").drop 5))) :=
  ⟨by decide, rfl,
    claim2_question_line _ (str "- Q: hi\n") [] [] [] [] _ (by decide) rfl⟩

/-! ### C9: lines that almost look like questions -/

/-- C9: a line beginning with `'- Q:'` but not with the full prefix
`'- Q: '` is an ordinary line: it is copied verbatim to the output, no
request is issued for it, and the history is untouched. -/
theorem claim9_near_question (oracle : List Msg → Except PyStr Msg)
    (line : PyStr) (rest : List PyStr) (msgs : List Msg) (out : List PyStr)
    (reqs : List (List Msg))
    (h1 : pyStartsWith line qColonMark = true)
    (h2 : pyStartsWith line qMark = false) :
    fillLoop oracle (line :: rest) msgs out reqs =
      fillLoop oracle rest msgs (out ++ [line]) reqs := by
  have ha : pyStartsWith line aMark = false := qcolon_not_a line h1
  simp [fillLoop, h2, ha]

theorem claim9_witness :
    pyStartsWith (str "- Q:text\n") qColonMark = true
    ∧ pyStartsWith (str "- Q:text\n") qMark = false
    ∧ fillLoop (okOracle (fun _ => Msg.mk (str "assistant") (str "x")))
          [str "- Q:text\n"] [] [] [] =
        fillLoop (okOracle (fun _ => Msg.mk (str "assistant") (str "x")))
          [] [] ([] ++ [str "- Q:text\n"]) [] :=
  ⟨by decide, by decide,
    claim9_near_question _ (str "- Q:text\n") [] [] [] [] (by decide) (by decide)⟩

/-! ### C4: history accumulation across questions -/

/-- C4 is false as literally stated: with two consecutive question lines and
no system message, the message history passed to the second request has three
entries, not four. -/
theorem claim4_counterexample :
    ((fillOutputFileUsingConversationHistory
        (okOracle (fun _ => Msg.mk (str "assistant") (str "A1"))) none
        [str "- Q: Q1\n", str "- Q: Q2\n"]).requests.map List.length) = [1, 3]
    ∧ ¬(((fillOutputFileUsingConversationHistory
        (okOracle (fun _ => Msg.mk (str "assistant") (str "A1"))) none
        [str "- Q: Q1\n", str "- Q: Q2\n"]).requests.get? 1).map List.length =
          some 4) := by
  decide

/-- C4 (amended): for an input with two consecutive question lines and no
system message, exactly two requests are issued, and the history passed to
the second contains three entries — user Q1, assistant A1, user Q2 — showing
that history accumulates across questions within the run. -/
theorem claim4_history_accumulation (f : List Msg → Msg) (l1 l2 : PyStr)
    (h1 : pyStartsWith l1 qMark = true) (h2 : pyStartsWith l2 qMark = true) :
    (fillOutputFileUsingConversationHistory (okOracle f) none [l1, l2]).requests =
      [[questionEntry l1],
       [questionEntry l1, f [questionEntry l1], questionEntry l2]]
    ∧ ((fillOutputFileUsingConversationHistory (okOracle f) none [l1, l2]).requests.map
        List.length) = [1, 3] := by
  have e : (fillOutputFileUsingConversationHistory (okOracle f) none [l1, l2]).requests =
      [[questionEntry l1],
       [questionEntry l1, f [questionEntry l1], questionEntry l2]] := by
    simp [fillOutputFileUsingConversationHistory, initialMessages, fillLoop, h1, h2,
      okOracle]
  exact ⟨e, by rw [e]; rfl⟩

theorem claim4_witness :
    pyStartsWith (str "- Q: Q1\n") qMark = true
    ∧ pyStartsWith (str "- Q: Q2\n") qMark = true
    ∧ ((fillOutputFileUsingConversationHistory
          (okOracle (fun _ => Msg.mk (str "assistant") (str "A1"))) none
          [str "- Q: Q1\n", str "- Q: Q2\n"]).requests =
        [[questionEntry (str "- Q: Q1\n")],
         [questionEntry (str "- Q: Q1\n"),
          (fun _ : List Msg => Msg.mk (str "assistant") (str "A1"))
            [questionEntry (str "- Q: Q1\n")],
          questionEntry (str "- Q: Q2\n")]]
       ∧ ((fillOutputFileUsingConversationHistory
            (okOracle (fun _ => Msg.mk (str "assistant") (str "A1"))) none
            [str "- Q: Q1\n", str "- Q: Q2\n"]).requests.map List.length) = [1, 3]) :=
  ⟨by decide, by decide,
    claim4_history_accumulation (fun _ => Msg.mk (str "assistant") (str "A1"))
      (str "- Q: Q1\n") (str "- Q: Q2\n") (by decide) (by decide)⟩

/-! ### C8: an API error aborts the run -/

/-- C8: if the API raises while processing any question line of the run —
whatever successfully processed lines, questions and answers included,
precede it, and with or without a system message — the error propagates with
no retry: exactly one more request is issued (the one that failed),
processing stops so that the lines after the failing question contribute
nothing, and the output holds exactly what was already written — the output
of the run over the preceding lines plus the failing question line itself,
which is written before the request is issued. -/
theorem claim8_error_aborts (oracle : List Msg → Except PyStr Msg)
    (sm : Option PyStr) (before : List PyStr) (line : PyStr) (rest : List PyStr)
    (e : PyStr)
    (hok : (fillOutputFileUsingConversationHistory oracle sm before).error = none)
    (hq : pyStartsWith line qMark = true)
    (he : oracle ((fillOutputFileUsingConversationHistory oracle sm before).messages
        ++ [questionEntry line]) = Except.error e) :
    fillOutputFileUsingConversationHistory oracle sm (before ++ line :: rest) =
      RunResult.mk
        ((fillOutputFileUsingConversationHistory oracle sm before).output ++ [line])
        ((fillOutputFileUsingConversationHistory oracle sm before).messages
          ++ [questionEntry line])
        ((fillOutputFileUsingConversationHistory oracle sm before).requests
          ++ [(fillOutputFileUsingConversationHistory oracle sm before).messages
            ++ [questionEntry line]])
        (some e) := by
  have h0 : fillOutputFileUsingConversationHistory oracle sm (before ++ line :: rest) =
      fillLoop oracle (before ++ line :: rest) (initialMessages sm) [] [] := rfl
  have he2 : oracle ((fillLoop oracle before (initialMessages sm) [] []).messages
      ++ [questionEntry line]) = Except.error e := he
  rw [h0, fillLoop_append oracle before (initialMessages sm) [] [] (line :: rest) hok]
  simp [fillLoop, fillOutputFileUsingConversationHistory, hq, he2]

theorem claim8_witness :
    (fillOutputFileUsingConversationHistory
        (fun h => if h.length ≤ 1 then
            (Except.ok (Msg.mk (str "assistant") (str "1")) : Except PyStr Msg)
          else Except.error (str "boom")) none
        [str "# title\n", str "- Q: one\n"]).error = none
    ∧ pyStartsWith (str "- Q: two\n") qMark = true
    ∧ (fun h : List Msg => if h.length ≤ 1 then
          (Except.ok (Msg.mk (str "assistant") (str "1")) : Except PyStr Msg)
        else Except.error (str "boom"))
        ((fillOutputFileUsingConversationHistory
          (fun h => if h.length ≤ 1 then
              (Except.ok (Msg.mk (str "assistant") (str "1")) : Except PyStr Msg)
            else Except.error (str "boom")) none
          [str "# title\n", str "- Q: one\n"]).messages
          ++ [questionEntry (str "- Q: two\n")]) = Except.error (str "boom")
    ∧ fillOutputFileUsingConversationHistory
        (fun h => if h.length ≤ 1 then
            (Except.ok (Msg.mk (str "assistant") (str "1")) : Except PyStr Msg)
          else Except.error (str "boom")) none
        ([str "# title\n", str "- Q: one\n"] ++ str "- Q: two\n" :: [str "ignored\n"]) =
      RunResult.mk
        ((fillOutputFileUsingConversationHistory
            (fun h => if h.length ≤ 1 then
                (Except.ok (Msg.mk (str "assistant") (str "1")) : Except PyStr Msg)
              else Except.error (str "boom")) none
            [str "# title\n", str "- Q: one\n"]).output ++ [str "- Q: two\n"])
        ((fillOutputFileUsingConversationHistory
            (fun h => if h.length ≤ 1 then
                (Except.ok (Msg.mk (str "assistant") (str "1")) : Except PyStr Msg)
              else Except.error (str "boom")) none
            [str "# title\n", str "- Q: one\n"]).messages
          ++ [questionEntry (str "- Q: two\n")])
        ((fillOutputFileUsingConversationHistory
            (fun h => if h.length ≤ 1 then
                (Except.ok (Msg.mk (str "assistant") (str "1")) : Except PyStr Msg)
              else Except.error (str "boom")) none
            [str "# title\n", str "- Q: one\n"]).requests
          ++ [(fillOutputFileUsingConversationHistory
              (fun h => if h.length ≤ 1 then
                  (Except.ok (Msg.mk (str "assistant") (str "1")) : Except PyStr Msg)
                else Except.error (str "boom")) none
              [str "# title\n", str "- Q: one\n"]).messages
            ++ [questionEntry (str "- Q: two\n")]])
        (some (str "boom")) :=
  ⟨by decide, by decide, rfl,
    claim8_error_aborts
      (fun h => if h.length ≤ 1 then
          (Except.ok (Msg.mk (str "assistant") (str "1")) : Except PyStr Msg)
        else Except.error (str "boom"))
      none [str "# title\n", str "- Q: one\n"] (str "- Q: two\n") [str "ignored\n"]
      (str "boom") (by decide) (by decide) rfl⟩

/-! ### C3: re-running the rewriter on its own output -/

/-- C3: re-running the rewriter on its own output file — the written strings
joined into file content and read back line by line — yields an output with
the same question lines and the same non-question non-answer lines in the
same order, with no duplication or reordering; only the answer lines are
regenerated.  The hypotheses make the output file well formed: every input
line is a complete line and the first run's answers have no interior newline,
so the first output re-splits into exactly the written lines. -/
theorem claim3_rerun_stable (f1 f2 : List Msg → Msg) (sm1 sm2 : Option PyStr)
    (input : List PyStr)
    (hin : ∀ l ∈ input, properLine l = true)
    (hf1 : ∀ h : List Msg,
      (pyStrip (f1 h).content).all (fun x => !(x == '\n')) = true) :
    splitLines (pyJoin
        (fillOutputFileUsingConversationHistory (okOracle f1) sm1 input).output) =
      (fillOutputFileUsingConversationHistory (okOracle f1) sm1 input).output
    ∧ (fillOutputFileUsingConversationHistory (okOracle f2) sm2
          (splitLines (pyJoin (fillOutputFileUsingConversationHistory
            (okOracle f1) sm1 input).output))).output.filter
          (fun l => !(pyStartsWith l aMark)) =
        (fillOutputFileUsingConversationHistory (okOracle f1) sm1 input).output.filter
          (fun l => !(pyStartsWith l aMark))
    ∧ (fillOutputFileUsingConversationHistory (okOracle f2) sm2
          (splitLines (pyJoin (fillOutputFileUsingConversationHistory
            (okOracle f1) sm1 input).output))).output.filter
          (fun l => pyStartsWith l qMark) =
        (fillOutputFileUsingConversationHistory (okOracle f1) sm1 input).output.filter
          (fun l => pyStartsWith l qMark)
    ∧ outputShape (fillOutputFileUsingConversationHistory (okOracle f2) sm2
          (splitLines (pyJoin (fillOutputFileUsingConversationHistory
            (okOracle f1) sm1 input).output))).output = true := by
  have hproper : ∀ l ∈ (fillOutputFileUsingConversationHistory
      (okOracle f1) sm1 input).output, properLine l = true :=
    fillLoop_output_proper f1 hf1 input hin (initialMessages sm1)
  have hsplit := splitLines_pyJoin
    (fillOutputFileUsingConversationHistory (okOracle f1) sm1 input).output hproper
  obtain ⟨g1, g2, g3, g4, g5⟩ := fillLoop_structure f2
    (fillOutputFileUsingConversationHistory (okOracle f1) sm1 input).output
    (initialMessages sm2)
  rw [hsplit]
  exact ⟨rfl, g4, g1, g2⟩

theorem claim3_witness :
    (∀ l ∈ [str "# T\n", str "- Q: hi\n", str "- A: old\n"], properLine l = true)
    ∧ (∀ h : List Msg,
        (pyStrip ((fun _ : List Msg => Msg.mk (str "assistant") (str "4")) h).content).all
          (fun x => !(x == '\n')) = true)
    ∧ (splitLines (pyJoin
          (fillOutputFileUsingConversationHistory
            (okOracle (fun _ => Msg.mk (str "assistant") (str "4"))) none
            [str "# T\n", str "- Q: hi\n", str "- A: old\n"]).output) =
        (fillOutputFileUsingConversationHistory
          (okOracle (fun _ => Msg.mk (str "assistant") (str "4"))) none
          [str "# T\n", str "- Q: hi\n", str "- A: old\n"]).output
      ∧ (fillOutputFileUsingConversationHistory
            (okOracle (fun _ => Msg.mk (str "assistant") (str "5"))) none
            (splitLines (pyJoin (fillOutputFileUsingConversationHistory
              (okOracle (fun _ => Msg.mk (str "assistant") (str "4"))) none
              [str "# T\n", str "- Q: hi\n", str "- A: old\n"]).output))).output.filter
            (fun l => !(pyStartsWith l aMark)) =
          (fillOutputFileUsingConversationHistory
            (okOracle (fun _ => Msg.mk (str "assistant") (str "4"))) none
            [str "# T\n", str "- Q: hi\n", str "- A: old\n"]).output.filter
            (fun l => !(pyStartsWith l aMark))
      ∧ (fillOutputFileUsingConversationHistory
            (okOracle (fun _ => Msg.mk (str "assistant") (str "5"))) none
            (splitLines (pyJoin (fillOutputFileUsingConversationHistory
              (okOracle (fun _ => Msg.mk (str "assistant") (str "4"))) none
              [str "# T\n", str "- Q: hi\n", str "- A: old\n"]).output))).output.filter
            (fun l => pyStartsWith l qMark) =
          (fillOutputFileUsingConversationHistory
            (okOracle (fun _ => Msg.mk (str "assistant") (str "4"))) none
            [str "# T\n", str "- Q: hi\n", str "- A: old\n"]).output.filter
            (fun l => pyStartsWith l qMark)
      ∧ outputShape (fillOutputFileUsingConversationHistory
            (okOracle (fun _ => Msg.mk (str "assistant") (str "5"))) none
            (splitLines (pyJoin (fillOutputFileUsingConversationHistory
              (okOracle (fun _ => Msg.mk (str "assistant") (str "4"))) none
              [str "# T\n", str "- Q: hi\n", str "- A: old\n"]).output))).output = true) :=
  ⟨by decide,
    fun _ => (by decide :
      (pyStrip (Msg.mk (str "assistant") (str "4")).content).all
        (fun x => !(x == '\n')) = true),
    claim3_rerun_stable (fun _ => Msg.mk (str "assistant") (str "4"))
      (fun _ => Msg.mk (str "assistant") (str "5")) none none
      [str "# T\n", str "- Q: hi\n", str "- A: old\n"]
      (by decide)
      (fun _ => (by decide :
        (pyStrip (Msg.mk (str "assistant") (str "4")).content).all
          (fun x => !(x == '\n')) = true))⟩

/-! ### C5, C7, C10: the interactive input helpers -/

theorem parseDecimal_strip_ne (s : PyStr) (v : Dec) (h : parseDecimal s = some v) :
    (pyStrip s).isEmpty = false := by
  rcases he : pyStrip s with _ | ⟨c, cs⟩
  · simp [parseDecimal, he] at h
  · simp [he]

theorem parseInt_strip_ne (s : PyStr) (n : Int) (h : parseInt s = some n) :
    (pyStrip s).isEmpty = false := by
  rcases he : pyStrip s with _ | ⟨c, cs⟩
  · simp [parseInt, he] at h
  · simp [he]

/-- C5: for the bounded float prompt over `[-2.0, 2.0]` with nullable
allowed: the reply `"abc"` is rejected and the prompt repeats; the reply
`"3.5"` parses but is out of range, so it is rejected and the prompt repeats;
an empty or whitespace-only reply yields `None`, leaving the field unset; and
any in-range numeric reply is returned as that number. -/
theorem claim5_float_prompt :
    (∀ rest : List PyStr, inputFloatBetween (-2) 2 true (str "abc" :: rest) =
        inputFloatBetween (-2) 2 true rest)
    ∧ (∀ rest : List PyStr, inputFloatBetween (-2) 2 true (str "3.5" :: rest) =
        inputFloatBetween (-2) 2 true rest)
    ∧ (∀ (s : PyStr) (rest : List PyStr), (pyStrip s).isEmpty = true →
        inputFloatBetween (-2) 2 true (s :: rest) = some (none, rest))
    ∧ (∀ (s : PyStr) (v : Dec) (rest : List PyStr), parseDecimal s = some v →
        -2 ≤ decValue v → decValue v ≤ 2 →
        inputFloatBetween (-2) 2 true (s :: rest) = some (some (decValue v), rest)) := by
  refine ⟨?_, ?_, ?_, ?_⟩
  · intro rest
    have h1 : (pyStrip (str "abc")).isEmpty = false := by decide
    have h2 : parseDecimal (str "abc") = none := by decide
    simp [inputFloatBetween, h1, h2]
  · intro rest
    have h1 : (pyStrip (str "3.5")).isEmpty = false := by decide
    have h2 : parseDecimal (str "3.5") = some ((35 : Int), 1) := by decide
    have h3 : ((2 : Rat) < decValue ((35 : Int), 1) ∨
        decValue ((35 : Int), 1) < -2) := by
      left
      rw [decValue]
      norm_num
    simp [inputFloatBetween, h1, h2, h3]
  · intro s rest h
    simp [inputFloatBetween, h]
  · intro s v rest hp hmin hmax
    have h1 : (pyStrip s).isEmpty = false := parseDecimal_strip_ne s v hp
    have h3 : ¬((2 : Rat) < decValue v ∨ decValue v < -2) := by
      rintro (hlt | hlt)
      · exact absurd hlt (not_lt.mpr hmax)
      · exact absurd hlt (not_lt.mpr hmin)
    simp [inputFloatBetween, h1, hp, h3]

theorem claim5_witness :
    inputFloatBetween (-2) 2 true [str "abc", str "3.5", str ""] =
      some (none, ([] : List PyStr))
    ∧ parseDecimal (str "1.5") = some ((15 : Int), 1)
    ∧ decValue ((15 : Int), 1) = (3 : Rat) / 2
    ∧ inputFloatBetween (-2) 2 true [str "1.5"] =
        some (some (decValue ((15 : Int), 1)), ([] : List PyStr)) := by
  refine ⟨?_, by decide, by rw [decValue]; norm_num, ?_⟩
  · rw [claim5_float_prompt.1 [str "3.5", str ""],
      claim5_float_prompt.2.1 [str ""]]
    exact claim5_float_prompt.2.2.1 (str "") [] (by decide)
  · exact claim5_float_prompt.2.2.2 (str "1.5") ((15 : Int), 1) [] (by decide)
      (by rw [decValue]; norm_num) (by rw [decValue]; norm_num)

/-- C7: for the `max_tokens` prompt, any reply that parses as an integer is
accepted and returned, whatever its magnitude — there is no range check; a
non-numeric reply re-prompts; an empty or whitespace-only reply yields `None`
when nullable. -/
theorem claim7_int_prompt :
    (∀ (s : PyStr) (n : Int) (rest : List PyStr), parseInt s = some n →
        inputInt true (s :: rest) = some (some n, rest))
    ∧ (∀ (s : PyStr) (rest : List PyStr), (pyStrip s).isEmpty = false →
        parseInt s = none → inputInt true (s :: rest) = inputInt true rest)
    ∧ (∀ (s : PyStr) (rest : List PyStr), (pyStrip s).isEmpty = true →
        inputInt true (s :: rest) = some (none, rest)) := by
  refine ⟨?_, ?_, ?_⟩
  · intro s n rest hp
    have h1 : (pyStrip s).isEmpty = false := parseInt_strip_ne s n hp
    simp [inputInt, h1, hp]
  · intro s rest h1 hp
    simp [inputInt, h1, hp]
  · intro s rest h
    simp [inputInt, h]

theorem claim7_witness :
    parseInt (str "123456789012345678901234567890") =
      some 123456789012345678901234567890
    ∧ inputInt true [str "123456789012345678901234567890"] =
        some (some 123456789012345678901234567890, ([] : List PyStr))
    ∧ (pyStrip (str "x7")).isEmpty = false
    ∧ parseInt (str "x7") = none
    ∧ inputInt true [str "x7", str "5"] = inputInt true [str "5"]
    ∧ (pyStrip (str "  ")).isEmpty = true
    ∧ inputInt true [str "  "] = some (none, ([] : List PyStr)) := by
  refine ⟨by decide, ?_, by decide, by decide, ?_, by decide, ?_⟩
  · exact claim7_int_prompt.1 _ _ [] (by decide)
  · exact claim7_int_prompt.2.1 _ [str "5"] (by decide) (by decide)
  · exact claim7_int_prompt.2.2 _ [] (by decide)

/-- C10: a whitespace-only reply behaves exactly like an empty one —
`inputStringOrNull` returns `None` and `inputStringOrDefault` returns the
caller-supplied default; a non-blank reply is returned stripped of leading
and trailing whitespace by both helpers. -/
theorem claim10_string_prompts (s d : PyStr) :
    ((pyStrip s).isEmpty = true →
      inputStringOrNull s = none ∧ inputStringOrDefault s d = d)
    ∧ ((pyStrip s).isEmpty = false →
      inputStringOrNull s = some (pyStrip s) ∧
        inputStringOrDefault s d = pyStrip s) := by
  constructor
  · intro h
    constructor <;> simp [inputStringOrNull, inputStringOrDefault, h]
  · intro h
    constructor <;> simp [inputStringOrNull, inputStringOrDefault, h]

theorem claim10_witness :
    inputStringOrNull (str "   ") = none
    ∧ inputStringOrDefault (str "   ") (str "dft") = str "dft"
    ∧ inputStringOrNull (str "  hi  ") = some (str "hi")
    ∧ inputStringOrDefault (str "  hi  ") (str "dft") = str "hi" := by
  have h1 := (claim10_string_prompts (str "   ") (str "dft")).1 (by decide)
  have h2 := (claim10_string_prompts (str "  hi  ") (str "dft")).2 (by decide)
  have e : pyStrip (str "  hi  ") = str "hi" := by decide
  exact ⟨h1.1, h1.2, by rw [h2.1, e], by rw [h2.2, e]⟩

/-! ### C6: the cached request options -/

/-- C6: a call that finds a cached configuration returns it unchanged and
consumes no operator input; the first call prompts, and every nullable
numeric option answered with an empty reply is absent from the resulting
configuration (the field is `none`), never set to a zero value. -/
theorem claim6_request_options (opts : RequestOptions) (inputs : List PyStr)
    (i0 : PyStr) (rest : List PyStr) :
    getRequestOptions (some opts) inputs = some (opts, some opts, inputs)
    ∧ getRequestOptions none (i0 :: [] :: [] :: [] :: [] :: rest) =
        some (RequestOptions.mk (inputStringOrDefault i0 (str "local-model"))
            none none none none,
          some (RequestOptions.mk (inputStringOrDefault i0 (str "local-model"))
            none none none none),
          rest) := by
  constructor
  · rfl
  · simp [getRequestOptions, buildRequestOptions, inputFloatBetween, inputInt, pyStrip]

end LlmTester
